import Mathlib

/-!
# Verification of the EVP 15KVA generator controller core

A shallow embedding of `src/generator_control.py` (class `GeneratorController`):
the mode state machine, the reverse-power hysteresis detector, the fault
predicate, and the output sequencer for relays and the inverter switch-mode
command.

Modelling conventions:

* Python floats (telemetry values, wall-clock times) are modelled as `ℚ`;
  the dbus reads that may return `None` are modelled as `Option` values.
* The `Mode` attribute is a Python string and is modelled as `String`
  (its values are `""`, `"Off"`, `"On"`, `"ChargeOnly"`).
* Bus effects (`set_dbus_value` calls) are modelled as an emitted list of
  `BusWrite` values; dbus connection management (`check_and_create_connections`,
  `clear_dbus_item`), printing, memory profiling and the GPIO file reads are
  out of scope — the per-tick read results enter as explicit inputs.
* A Python statement that raises an exception escaping the tick is modelled
  with `Except String`.
-/

namespace GeneratorControl

/-- Source constant `INV_SWITCH_OFF = 4`. -/
def INV_SWITCH_OFF : ℕ := 4

/-- Source constant `INV_SWITCH_ON = 3`. -/
def INV_SWITCH_ON : ℕ := 3

/-- Source constant `INV_SWITCH_INVERT_ONLY = 2`. -/
def INV_SWITCH_INVERT_ONLY : ℕ := 2

/-- Source constant `INV_SWITCH_CHARGE_ONLY = 1`. -/
def INV_SWITCH_CHARGE_ONLY : ℕ := 1

/-- Source constant `REVERSE_POWER_CURRENT_THRESHOLD = -5` (Amps). -/
def REVERSE_POWER_CURRENT_THRESHOLD : ℚ := -5

/-- Source constant `DEFAULT_MODE = "Off"`. -/
def DEFAULT_MODE : String := "Off"

/-- Source constant `TIMESTEP = 1`. -/
def TIMESTEP : ℕ := 1

/-- Source constant `REVERSE_POWER_COUNTER_THRESHOLD = 10 / TIMESTEP` (in the
source this is the Python float `10.0`; the counter it bounds is an integer,
so `ℕ` is adequate). -/
def REVERSE_POWER_COUNTER_THRESHOLD : ℕ := 10 / TIMESTEP

/-- The seven digital inputs sampled by `update_inputs` each tick
(`read_input` yields 1/0, modelled as `Bool`). The three LED feedback
channels and the BMS-wake feedback are read but never consumed by the
decision logic. -/
structure Inputs where
  Off_Button : Bool
  On_Button : Bool
  Charge_Button : Bool
  Off_LED : Bool
  On_LED : Bool
  Charge_LED : Bool
  BMS_Wake : Bool
deriving DecidableEq, Repr

/-- The mutable attributes of the `GeneratorController` object that the
control logic reads or writes. `relay_states` is the dict re-read from the
bus each tick (absent keys and failed reads are `none`); `input_values`
holds the digital inputs sampled this tick. The source prefixes
`Toggle_State` and `inverter_switch_mode_update_time` with an underscore. -/
structure ControllerState where
  Mode : String
  Toggle_State : Bool
  inverter_switch_mode_update_time : ℚ
  Off_Button_Pressed_Counter : ℕ
  BMS_Disable : Bool
  Battery_SOC : ℚ
  Battery_Charge_Limit : Option ℚ
  Battery_Discharge_Limit : Option ℚ
  AC_Output_Current : Option ℚ
  Inverter_Switch_Mode : ℕ
  Reverse_Power_Counter : ℕ
  Reverse_Power_Alarm : Bool
  Inverter_Connected : Bool
  BMS_Connected : Bool
  relay_states : ℕ → Option ℤ
  inverter_delay : ℕ
  input_values : Inputs

/-- The state built by `GeneratorController.__init__`. In the source the
limits are the Python int `0` (never `None`); `input_values` is first
assigned in `update_inputs`, before any use, so an all-false placeholder is
adequate. -/
def initState : ControllerState where
  Mode := ""
  Toggle_State := false
  inverter_switch_mode_update_time := 0
  Off_Button_Pressed_Counter := 0
  BMS_Disable := false
  Battery_SOC := 0
  Battery_Charge_Limit := some 0
  Battery_Discharge_Limit := some 0
  AC_Output_Current := none
  Inverter_Switch_Mode := 0
  Reverse_Power_Counter := 0
  Reverse_Power_Alarm := false
  Inverter_Connected := false
  BMS_Connected := false
  relay_states := fun _ => none
  inverter_delay := 0
  input_values := ⟨false, false, false, false, false, false, false⟩

/-- A value send to the bus by `set_dbus_value`: either a relay state write
or an inverter switch-mode command. The switch-mode payload is the
`Inverter_Switch_Mode_Target` property, which is `None` for a mode outside
the mapping, hence `Option ℕ`. -/
inductive BusWrite where
  | relay (relay_no : ℕ) (value : ℤ)
  | inverter_switch_mode (value : Option ℕ)
deriving DecidableEq, Repr

/-! ## Python value semantics helpers -/

/-- Python truthiness of a possibly-`None` number: `None` and `0` are falsy. -/
def pyTruthy : Option ℚ → Bool
  | none => false
  | some q => q ≠ 0

/-- The Python expression `a and b`: yields `a` when `a` is falsy, else `b`. -/
def pyAnd (a b : Option ℚ) : Option ℚ :=
  if pyTruthy a then b else a

/-- The Python test `val == False` on a possibly-`None` number: `0 == False`
is true, but `None == False` is false. -/
def pyEqFalse : Option ℚ → Bool
  | none => false
  | some q => q = 0

/-- Python 3 `round` to an integer: round half to even (banker's rounding).
Float representation artifacts of the source are not modelled; no claim
depends on tie behaviour. -/
def round_half_even (x : ℚ) : ℤ :=
  let f := ⌊x⌋
  if x - f < 1 / 2 then f
  else if 1 / 2 < x - f then f + 1
  else if Even f then f else f + 1

/-- Python `round(x, 1)`: one decimal place. -/
def round1 (x : ℚ) : ℚ :=
  (round_half_even (x * 10) : ℚ) / 10

/-! ## Derived properties (Python `@property` methods, pure) -/

/-- Property `Off_Button_Pressed`. -/
def Off_Button_Pressed (st : ControllerState) : Bool :=
  st.input_values.Off_Button

/-- Property `On_Button_Pressed`. -/
def On_Button_Pressed (st : ControllerState) : Bool :=
  st.input_values.On_Button

/-- Property `Charge_Button_Pressed`. -/
def Charge_Button_Pressed (st : ControllerState) : Bool :=
  st.input_values.Charge_Button

/-- Property `Off_LED`. -/
def Off_LED (st : ControllerState) : Bool :=
  st.Mode == "Off"

/-- Property `On_LED`. -/
def On_LED (st : ControllerState) : Bool :=
  st.Mode == "On"

/-- Property `Charge_LED`. -/
def Charge_LED (st : ControllerState) : Bool :=
  st.Mode == "ChargeOnly"

/-- Property `BMS_Wake`: wake is asserted in all modes except Off with low
SOC or the BMS-disable latch. -/
def BMS_Wake (st : ControllerState) : Bool :=
  !((st.Mode == "Off") && (decide (st.Battery_SOC < 50) || st.BMS_Disable))

/-- Property `DSE_Remote_Start`: only in mode On. -/
def DSE_Remote_Start (st : ControllerState) : Bool :=
  st.Mode == "On"

/-- Property `DSE_Mode_Request`: in modes On and ChargeOnly. -/
def DSE_Mode_Request (st : ControllerState) : Bool :=
  (st.Mode == "On") || (st.Mode == "ChargeOnly")

/-- Property `RCD_Reset_Switch`: Off+On or Off+Charge chords. -/
def RCD_Reset_Switch (st : ControllerState) : Bool :=
  (Off_Button_Pressed st && On_Button_Pressed st && !(Charge_Button_Pressed st)) ||
  (Off_Button_Pressed st && Charge_Button_Pressed st && !(On_Button_Pressed st))

/-- Property `Service_Restart_Requested`: all three buttons held. -/
def Service_Restart_Requested (st : ControllerState) : Bool :=
  Off_Button_Pressed st && On_Button_Pressed st && Charge_Button_Pressed st

/-- Property `Fault_Detected`. The Python method returns `True` on a fault
and falls through returning `None` (falsy) otherwise, so `Bool` is faithful. -/
def Fault_Detected (st : ControllerState) : Bool :=
  if !(st.Mode == "Off" || st.Mode == "On" || st.Mode == "ChargeOnly") then true
  else if st.BMS_Connected == false then true
  else if (st.Mode != "Off") && (st.Inverter_Connected == false) then true
  else if (st.Mode != "Off") && (st.Reverse_Power_Alarm == true) then true
  else false

/-- Property `Inverter_Switch_Mode_Target`: Off overrides when the
reverse-power alarm is set; otherwise `modes.get(self.Mode)`, which is
`None` (modelled `none`) for a mode outside the four-entry dict. -/
def Inverter_Switch_Mode_Target (st : ControllerState) : Option ℕ :=
  if st.Reverse_Power_Alarm then some INV_SWITCH_OFF
  else if st.Mode == "Off" then some INV_SWITCH_OFF
  else if st.Mode == "On" then some INV_SWITCH_ON
  else if st.Mode == "InvertOnly" then some INV_SWITCH_INVERT_ONLY
  else if st.Mode == "ChargeOnly" then some INV_SWITCH_CHARGE_ONLY
  else none

/-- Property `Reverse_Power_Detected`: AC output current present and below
the (negative) threshold. -/
def Reverse_Power_Detected (st : ControllerState) : Bool :=
  match st.AC_Output_Current with
  | some i => decide (i < REVERSE_POWER_CURRENT_THRESHOLD)
  | none => false

/-- Property `Battery_Contactors_Closed`. This property has a side effect:
when the conjunction `Battery_Charge_Limit and Battery_Discharge_Limit`
compares equal to `False` (Python `==`, under which `None == False` is
false) it resets `inverter_delay` to 10. Returns the truthiness of the
conjunction together with the updated state. -/
def Battery_Contactors_Closed (st : ControllerState) : Bool × ControllerState :=
  let val := pyAnd st.Battery_Charge_Limit st.Battery_Discharge_Limit
  let st := if pyEqFalse val then { st with inverter_delay := 10 } else st
  (pyTruthy val, st)

/-! ## State-updating methods -/

/-- Method `update_mode`: default the empty mode to Off, run the
off-button hold counter and the BMS-disable escalation, then apply the
mutually exclusive single-button transitions (ambiguous chords leave the
mode unchanged). -/
def update_mode (st : ControllerState) : ControllerState :=
  let st := if st.Mode == "" then { st with Mode := DEFAULT_MODE } else st
  let st :=
    if Off_Button_Pressed st then
      { st with Off_Button_Pressed_Counter := st.Off_Button_Pressed_Counter + 1 }
    else
      { st with Off_Button_Pressed_Counter := 0 }
  let st :=
    if st.Off_Button_Pressed_Counter ≥ 10 then { st with BMS_Disable := true } else st
  if Off_Button_Pressed st && !(On_Button_Pressed st || Charge_Button_Pressed st) then
    { st with Mode := "Off" }
  else if On_Button_Pressed st && !(Off_Button_Pressed st || Charge_Button_Pressed st) then
    { st with Mode := "On", BMS_Disable := false }
  else if Charge_Button_Pressed st && !(On_Button_Pressed st || Off_Button_Pressed st) then
    { st with Mode := "ChargeOnly", BMS_Disable := false }
  else
    st

/-- Method `update_battery_soc`, with the dbus read result (`none` on a
failed or missing read) passed in. -/
def update_battery_soc (st : ControllerState) (val : Option ℚ) : ControllerState :=
  match val with
  | some v => { st with BMS_Connected := true, Battery_SOC := v }
  | none => { st with BMS_Connected := false, Battery_SOC := 0 }

/-- Method `update_battery_limits`. The source tests
`self.Battery_Charge_Limit is not None` (the stored attribute) rather than
the freshly read `charge_lim`; inside that branch it evaluates
`round(charge_lim, 1)`, which raises `TypeError` when the read returned
`None`. The raise is modelled as `Except.error` (the source additionally
sets `BMS_Connected = True` before the raising expression, but the
exception escapes the tick and terminates the process, so the partially
mutated state is never observed). -/
def update_battery_limits (st : ControllerState) (charge_lim discharge_lim : Option ℚ) :
    Except String ControllerState :=
  if st.Battery_Charge_Limit ≠ none ∧ st.Battery_Discharge_Limit ≠ none then
    match charge_lim, discharge_lim with
    | some c, some d =>
        .ok { st with BMS_Connected := true,
                      Battery_Charge_Limit := some (round1 c),
                      Battery_Discharge_Limit := some (round1 d) }
    | _, _ => .error "TypeError: type NoneType does not define round"
  else
    .ok { st with BMS_Connected := false }

/-- Method `update_ac_output_current`. -/
def update_ac_output_current (st : ControllerState) (val : Option ℚ) : ControllerState :=
  match val with
  | some v => { st with Inverter_Connected := true, AC_Output_Current := some (round1 v) }
  | none => { st with Inverter_Connected := false, AC_Output_Current := none }

/-- Method `update_inverter_switch_mode`: a failed read degrades
`Inverter_Connected` and stores the sentinel `0` as the confirmed mode. -/
def update_inverter_switch_mode (st : ControllerState) (val : Option ℕ) : ControllerState :=
  match val with
  | some v => { st with Inverter_Connected := true, Inverter_Switch_Mode := v }
  | none => { st with Inverter_Connected := false, Inverter_Switch_Mode := 0 }

/-- Method `update_relay_states`: rebuild the relay dict from the bus reads
for relay ids 2 through 9. -/
def update_relay_states (st : ControllerState) (reads : ℕ → Option ℤ) : ControllerState :=
  { st with relay_states := fun n => if 2 ≤ n ∧ n < 10 then reads n else none }

/-- A relay target value: the call sites pass booleans, which `set_relay`
coerces to 0/1; integer targets pass through unchanged. -/
inductive RelayValue where
  | ofBool (b : Bool)
  | ofInt (i : ℤ)
deriving DecidableEq, Repr

/-- The 0/1 coercion `set_relay` applies to a boolean target. -/
def RelayValue.toInt : RelayValue → ℤ
  | .ofBool b => if b then 1 else 0
  | .ofInt i => i

/-- Method `set_relay`: coerce the target, then write it to the bus only
when it differs from `relay_states.get(relay_no)` (a Python `int != None`
comparison is true, so a missing or failed read always triggers a write).
The method does not mutate `relay_states`; its only effect is the emitted
bus write. -/
def set_relay (st : ControllerState) (relay_no : ℕ) (target_value : RelayValue) :
    List BusWrite :=
  if some target_value.toInt ≠ st.relay_states relay_no then
    [.relay relay_no target_value.toInt]
  else
    []

/-- Method `set_outputs`: relay 2 blinks on a fault (driven from the toggle
bit, which flips every tick the fault predicate holds, whether or not the
write is emitted), otherwise shows the Off LED; relays 3-9 are driven to
their predicate values. -/
def set_outputs (st : ControllerState) : ControllerState × List BusWrite :=
  let p :=
    if Fault_Detected st then
      ({ st with Toggle_State := !st.Toggle_State },
       set_relay st 2 (.ofBool st.Toggle_State))
    else
      (st, set_relay st 2 (.ofBool (Off_LED st)))
  let st := p.1
  (st,
    p.2 ++ set_relay st 3 (.ofBool (On_LED st))
        ++ set_relay st 4 (.ofBool (Charge_LED st))
        ++ set_relay st 5 (.ofBool (BMS_Wake st))
        ++ set_relay st 6 (.ofBool (DSE_Remote_Start st))
        ++ set_relay st 7 (.ofBool (DSE_Mode_Request st))
        ++ set_relay st 8 (.ofBool (RCD_Reset_Switch st))
        ++ set_relay st 9 (.ofBool st.Reverse_Power_Alarm))

/-- Method `set_inverter_switch_mode`, with `now` standing for the `time()`
calls of this tick. Gate 1: target differs from the confirmed mode (a
`None` target differs from any int). Gate 2: `Battery_Contactors_Closed`
(whose evaluation may reset `inverter_delay` to 10). Gate 3:
`inverter_delay == 0`; when nonzero it is decremented and floored at 0.
Gate 4: strictly more than 5 time units since the last command. When all
pass, the update time is recorded and the target is written to the bus. -/
def set_inverter_switch_mode (st : ControllerState) (now : ℚ) :
    ControllerState × List BusWrite :=
  if Inverter_Switch_Mode_Target st ≠ some st.Inverter_Switch_Mode then
    let p := Battery_Contactors_Closed st
    let st := p.2
    if p.1 then
      if st.inverter_delay = 0 then
        if now - st.inverter_switch_mode_update_time > 5 then
          let st := { st with inverter_switch_mode_update_time := now }
          (st, [.inverter_switch_mode (Inverter_Switch_Mode_Target st)])
        else
          (st, [])
      else
        let st := { st with inverter_delay := st.inverter_delay - 1 }
        ({ st with inverter_delay := max 0 st.inverter_delay }, [])
    else
      (st, [])
  else
    (st, [])

/-- Method `check_reverse_power`. In the increment branch the source
evaluates `max(REVERSE_POWER_COUNTER_THRESHOLD, self.Reverse_Power_Counter)`
and discards the result, so the counter is not capped; the decrement branch
assigns `max(0, counter - 1)`, which over `ℕ` is truncated subtraction.
Then the alarm latches at the threshold, and otherwise clears only when the
mode is Off with the counter at 0. -/
def check_reverse_power (st : ControllerState) : ControllerState :=
  let st :=
    if Reverse_Power_Detected st then
      { st with Reverse_Power_Counter := st.Reverse_Power_Counter + 1 }
    else
      { st with Reverse_Power_Counter := st.Reverse_Power_Counter - 1 }
  if st.Reverse_Power_Counter ≥ REVERSE_POWER_COUNTER_THRESHOLD then
    { st with Reverse_Power_Alarm := true }
  else if (st.Mode == "Off") && (st.Reverse_Power_Counter == 0) then
    { st with Reverse_Power_Alarm := false }
  else
    st

/-! ## The tick -/

/-- The per-tick external world: dbus read results (each `none` on a link
failure), the sampled digital inputs, and the wall-clock time of this tick. -/
structure TickInputs where
  inputs : Inputs
  battery_soc : Option ℚ
  battery_charge_limit : Option ℚ
  battery_discharge_limit : Option ℚ
  ac_output_current : Option ℚ
  inverter_switch_mode : Option ℕ
  relay_reads : ℕ → Option ℤ
  now : ℚ

/-- One iteration of the `run` loop body, in source order: sample inputs,
update the mode, read battery SOC and limits, and only when the mode is On
or ChargeOnly read the AC output current and run the reverse-power check;
then re-read the relay states, drive the relay outputs, read the confirmed
inverter switch mode, and run the gated switch-mode command. The
service-restart chord (which exits the process) and the status print are
not modelled. A `TypeError` escaping `update_battery_limits` aborts the
tick (and in the source the process). -/
def tick (st : ControllerState) (inp : TickInputs) :
    Except String (ControllerState × List BusWrite) := do
  let st := { st with input_values := inp.inputs }
  let st := update_mode st
  let st := update_battery_soc st inp.battery_soc
  let st ← update_battery_limits st inp.battery_charge_limit inp.battery_discharge_limit
  let st :=
    if st.Mode == "On" || st.Mode == "ChargeOnly" then
      check_reverse_power (update_ac_output_current st inp.ac_output_current)
    else
      st
  let st := update_relay_states st inp.relay_reads
  let q := set_outputs st
  let st := update_inverter_switch_mode q.1 inp.inverter_switch_mode
  let r := set_inverter_switch_mode st inp.now
  return (r.1, q.2 ++ r.2)

/-- The effect of a list of emitted bus writes on the bus relay-state map
(an inverter switch-mode command targets a different register and leaves
the relay map unchanged). -/
def apply_bus_writes (bus : ℕ → Option ℤ) : List BusWrite → (ℕ → Option ℤ)
  | [] => bus
  | .relay n v :: rest => apply_bus_writes (Function.update bus n (some v)) rest
  | .inverter_switch_mode _ :: rest => apply_bus_writes bus rest

/-! ## Helper lemmas -/

/-- A truthy Python value never compares equal to `False`. -/
lemma pyEqFalse_of_pyTruthy {x : Option ℚ} (h : pyTruthy x = true) :
    pyEqFalse x = false := by
  cases x with
  | none => simp [pyTruthy] at h
  | some q =>
    simp [pyTruthy] at h
    simp [pyEqFalse, h]

/-- Unfolded form of `Battery_Contactors_Closed`. -/
lemma Battery_Contactors_Closed_def (st : ControllerState) :
    Battery_Contactors_Closed st =
      (pyTruthy (pyAnd st.Battery_Charge_Limit st.Battery_Discharge_Limit),
       if pyEqFalse (pyAnd st.Battery_Charge_Limit st.Battery_Discharge_Limit) = true then
         { st with inverter_delay := 10 }
       else st) := rfl

/-- The switch-mode target reads only the mode and the alarm. -/
lemma target_eq_of_mode_alarm {s t : ControllerState} (hm : s.Mode = t.Mode)
    (ha : s.Reverse_Power_Alarm = t.Reverse_Power_Alarm) :
    Inverter_Switch_Mode_Target s = Inverter_Switch_Mode_Target t := by
  unfold Inverter_Switch_Mode_Target
  rw [hm, ha]

/-- Evaluating `Battery_Contactors_Closed` while the contactors are closed
does not mutate the state. -/
lemma contactors_closed_snd (st : ControllerState)
    (h : (Battery_Contactors_Closed st).1 = true) :
    (Battery_Contactors_Closed st).2 = st := by
  rw [Battery_Contactors_Closed_def] at h ⊢
  simp only at h
  simp [pyEqFalse_of_pyTruthy h]

/-- Gate 1 of `set_inverter_switch_mode`: a target equal to the confirmed
mode produces no action. -/
lemma set_ism_eq_target (st : ControllerState) (now : ℚ)
    (h : Inverter_Switch_Mode_Target st = some st.Inverter_Switch_Mode) :
    set_inverter_switch_mode st now = (st, []) := by
  unfold set_inverter_switch_mode
  simp [h]

/-- Gate 2 of `set_inverter_switch_mode`: contactors observed open produce
no write, returning the state mutated by the contactor property. -/
lemma set_ism_open (st : ControllerState) (now : ℚ)
    (h1 : Inverter_Switch_Mode_Target st ≠ some st.Inverter_Switch_Mode)
    (h2 : (Battery_Contactors_Closed st).1 = false) :
    set_inverter_switch_mode st now = ((Battery_Contactors_Closed st).2, []) := by
  unfold set_inverter_switch_mode
  simp [h1, h2]

/-- Gate 3 of `set_inverter_switch_mode`: a nonzero settle delay is
decremented and no write is emitted. -/
lemma set_ism_settle (st : ControllerState) (now : ℚ)
    (h1 : Inverter_Switch_Mode_Target st ≠ some st.Inverter_Switch_Mode)
    (h2 : (Battery_Contactors_Closed st).1 = true)
    (h3 : st.inverter_delay ≠ 0) :
    set_inverter_switch_mode st now =
      ({ st with inverter_delay := st.inverter_delay - 1 }, []) := by
  unfold set_inverter_switch_mode
  simp only [h1, contactors_closed_snd st h2, h2, h3, ne_eq, not_false_eq_true, if_true,
    if_false, ite_false]
  simp [h3]

/-- Gate 4 of `set_inverter_switch_mode`: rate limit not yet elapsed, no
write. -/
lemma set_ism_rate_limited (st : ControllerState) (now : ℚ)
    (h1 : Inverter_Switch_Mode_Target st ≠ some st.Inverter_Switch_Mode)
    (h2 : (Battery_Contactors_Closed st).1 = true)
    (h3 : st.inverter_delay = 0)
    (h4 : ¬(now - st.inverter_switch_mode_update_time > 5)) :
    set_inverter_switch_mode st now = (st, []) := by
  unfold set_inverter_switch_mode
  simp [h1, contactors_closed_snd st h2, h2, h3, h4]

/-- All gates pass: the command is written and the update time recorded. -/
lemma set_ism_command (st : ControllerState) (now : ℚ)
    (h1 : Inverter_Switch_Mode_Target st ≠ some st.Inverter_Switch_Mode)
    (h2 : (Battery_Contactors_Closed st).1 = true)
    (h3 : st.inverter_delay = 0)
    (h4 : now - st.inverter_switch_mode_update_time > 5) :
    set_inverter_switch_mode st now =
      ({ st with inverter_switch_mode_update_time := now },
       [.inverter_switch_mode (Inverter_Switch_Mode_Target st)]) := by
  unfold set_inverter_switch_mode
  simp only [h1, contactors_closed_snd st h2, h2, h3, h4, ne_eq, not_false_eq_true, if_true,
    ite_true, gt_iff_lt]
  refine congrArg (Prod.mk _) ?_
  refine congrArg (fun t => [BusWrite.inverter_switch_mode t]) ?_
  exact target_eq_of_mode_alarm rfl rfl

/-! ## Claim theorems -/

/-- C8: the inverter switch-mode target is OFF (code 4) whenever the
reverse-power alarm is set, regardless of mode; otherwise it is the fixed
table image of the mode (Off maps to 4, On to 3, ChargeOnly to 1);
InvertOnly (code 2) is in the mapping but is never produced for any mode
reachable by the state machine (the empty initial mode or the three
button-selected modes). -/
theorem C8_switch_mode_target_table (st : ControllerState) :
    (st.Reverse_Power_Alarm = true →
      Inverter_Switch_Mode_Target st = some INV_SWITCH_OFF) ∧
    (st.Reverse_Power_Alarm = false →
      (st.Mode = "Off" → Inverter_Switch_Mode_Target st = some INV_SWITCH_OFF) ∧
      (st.Mode = "On" → Inverter_Switch_Mode_Target st = some INV_SWITCH_ON) ∧
      (st.Mode = "ChargeOnly" → Inverter_Switch_Mode_Target st = some INV_SWITCH_CHARGE_ONLY) ∧
      (st.Mode = "InvertOnly" → Inverter_Switch_Mode_Target st = some INV_SWITCH_INVERT_ONLY)) ∧
    (st.Mode = "" ∨ st.Mode = "Off" ∨ st.Mode = "On" ∨ st.Mode = "ChargeOnly" →
      Inverter_Switch_Mode_Target st ≠ some INV_SWITCH_INVERT_ONLY) := by
  refine ⟨?_, ?_, ?_⟩
  · intro h
    simp [Inverter_Switch_Mode_Target, h]
  · intro h
    refine ⟨?_, ?_, ?_, ?_⟩ <;> intro hm <;>
      simp [Inverter_Switch_Mode_Target, h, hm]
  · intro hm
    by_cases ha : st.Reverse_Power_Alarm = true
    · simp [Inverter_Switch_Mode_Target, ha, INV_SWITCH_OFF, INV_SWITCH_INVERT_ONLY]
    · rcases hm with hm | hm | hm | hm <;>
        simp [Inverter_Switch_Mode_Target, ha, hm, INV_SWITCH_OFF, INV_SWITCH_ON,
          INV_SWITCH_CHARGE_ONLY, INV_SWITCH_INVERT_ONLY]

/-- Witness for C8 at a concrete state: mode On, no alarm, target is 3. -/
theorem C8_switch_mode_target_table_witness :
    Inverter_Switch_Mode_Target { initState with Mode := "On" } = some INV_SWITCH_ON :=
  ((C8_switch_mode_target_table { initState with Mode := "On" }).2.1 rfl).2.1 rfl

/-- C9: for every relay and every tick, a relay write is emitted if and
only if the new target value (booleans coerced to 0/1) differs from the
last recorded state for that relay id; when they are equal no write is
issued and the bus relay map is untouched. -/
theorem C9_relay_write_iff_changed (st : ControllerState) (relay_no : ℕ)
    (v : RelayValue) (bus : ℕ → Option ℤ) :
    (set_relay st relay_no v ≠ [] ↔ some v.toInt ≠ st.relay_states relay_no) ∧
    (set_relay st relay_no v ≠ [] →
      set_relay st relay_no v = [.relay relay_no v.toInt]) ∧
    (some v.toInt = st.relay_states relay_no →
      set_relay st relay_no v = [] ∧
      apply_bus_writes bus (set_relay st relay_no v) = bus) := by
  by_cases h : some v.toInt = st.relay_states relay_no
  · simp [set_relay, h, apply_bus_writes]
  · simp [set_relay, h]

/-- Witness for C9 at a concrete state: relay 3 already holds 1, so a true
target is suppressed and the bus is untouched. -/
theorem C9_relay_write_iff_changed_witness :
    set_relay { initState with relay_states := fun n => if n = 3 then some 1 else none }
        3 (.ofBool true) = [] ∧
    apply_bus_writes (fun _ => none)
        (set_relay { initState with relay_states := fun n => if n = 3 then some 1 else none }
          3 (.ofBool true)) = (fun _ => none) :=
  (C9_relay_write_iff_changed
    { initState with relay_states := fun n => if n = 3 then some 1 else none }
    3 (.ofBool true) (fun _ => none)).2.2 (by decide)

/-- C2 (code bug): the reverse-power counter does not saturate at the
threshold. From a state with the counter already at
`REVERSE_POWER_COUNTER_THRESHOLD = 10` and reverse power detected
(AC output current -8 A), one call to `check_reverse_power` drives the
counter to 11, because the saturating `max` expression on the increment
branch discards its result (and the alarm is set, showing the tick treated
the counter as at or beyond the threshold). -/
theorem C2_counter_exceeds_threshold :
    (check_reverse_power { initState with
        Mode := "On", AC_Output_Current := some (-8),
        Reverse_Power_Counter := 10 }).Reverse_Power_Counter =
      REVERSE_POWER_COUNTER_THRESHOLD + 1 ∧
    (check_reverse_power { initState with
        Mode := "On", AC_Output_Current := some (-8),
        Reverse_Power_Counter := 10 }).Reverse_Power_Alarm = true := by
  constructor <;> rfl

/-- A tick's worth of inputs with no buttons pressed, battery SOC present,
both battery current limits down (the dbus reads return `None`), and the
confirmed inverter mode read back as 4. -/
def inputsLimitsDown : TickInputs where
  inputs := ⟨false, false, false, false, false, false, false⟩
  battery_soc := some 80
  battery_charge_limit := none
  battery_discharge_limit := none
  ac_output_current := none
  inverter_switch_mode := some 4
  relay_reads := fun _ => none
  now := 0

/-- C5 (code bug): a failed battery-limits read does not degrade
`BMS_Connected` — it raises. From the initial state (whose stored limits
are the int 0, not `None`), a tick whose battery-limit reads return `None`
aborts with a `TypeError`: `update_battery_limits` tests the stored
attributes instead of the freshly read values and then evaluates
`round(None, 1)`. -/
theorem C5_limits_link_down_raises :
    tick initState inputsLimitsDown =
      .error "TypeError: type NoneType does not define round" := by
  rfl

/-- A state with the reverse-power alarm latched, mode Off, and the
hysteresis counter fully decayed to 0 — exactly the configuration in which
the alarm is documented to clear. -/
def stAlarmOffDecayed : ControllerState :=
  { initState with
      Mode := "Off"
      Reverse_Power_Alarm := true
      Reverse_Power_Counter := 0
      Battery_Charge_Limit := some 100
      Battery_Discharge_Limit := some 100
      Inverter_Switch_Mode := 4
      BMS_Connected := true }

/-- A healthy tick's worth of inputs: no buttons, all telemetry present,
confirmed inverter mode 4 (Off). -/
def inputsHealthyOff : TickInputs where
  inputs := ⟨false, false, false, false, false, false, false⟩
  battery_soc := some 80
  battery_charge_limit := some 100
  battery_discharge_limit := some 100
  ac_output_current := some 0
  inverter_switch_mode := some 4
  relay_reads := fun _ => none
  now := 0

/-- C3 (code bug): on a tick where the alarm is set, the mode is Off, and
the counter is 0, the alarm is NOT cleared — the run loop invokes
`check_reverse_power` only when the mode is On or ChargeOnly, so the
clearing branch (mode Off and counter 0) is unreachable at tick level and
the alarm persists. -/
theorem C3_alarm_never_clears_at_tick_level :
    stAlarmOffDecayed.Reverse_Power_Alarm = true ∧
    stAlarmOffDecayed.Mode = "Off" ∧
    stAlarmOffDecayed.Reverse_Power_Counter = 0 ∧
    ((tick stAlarmOffDecayed inputsHealthyOff).toOption.map
        fun p => p.1.Reverse_Power_Alarm) = some true := by
  refine ⟨rfl, rfl, rfl, ?_⟩
  rfl

/-- A state with an inverter command pending: mode On (target 3), confirmed
mode 4, contactors closed (both limits 100 A), settle delay 0, last command
at time 0. -/
def stPendingOn : ControllerState :=
  { initState with
      Mode := "On"
      Inverter_Switch_Mode := 4
      Battery_Charge_Limit := some 100
      Battery_Discharge_Limit := some 100 }

/-- C1 counterexample: at exactly 5 time units since the last command, with
the other three gates passing (target 3 differs from confirmed 4,
contactors closed, settle delay 0), no command is issued — the source
requires strictly more than 5 units, so the claimed iff with an at-least-5
gate fails here. -/
theorem C1_counterexample_elapsed_exactly_five :
    Inverter_Switch_Mode_Target stPendingOn ≠ some stPendingOn.Inverter_Switch_Mode ∧
    (Battery_Contactors_Closed stPendingOn).1 = true ∧
    stPendingOn.inverter_delay = 0 ∧
    (5 : ℚ) - stPendingOn.inverter_switch_mode_update_time ≥ 5 ∧
    (set_inverter_switch_mode stPendingOn 5).2 = [] := by
  have h1 : Inverter_Switch_Mode_Target stPendingOn ≠ some stPendingOn.Inverter_Switch_Mode := by
    decide
  have h2 : (Battery_Contactors_Closed stPendingOn).1 = true := by decide
  have h4 : ¬((5 : ℚ) - stPendingOn.inverter_switch_mode_update_time > 5) := by
    norm_num [stPendingOn, initState]
  refine ⟨h1, h2, rfl, by norm_num [stPendingOn, initState], ?_⟩
  rw [set_ism_rate_limited stPendingOn 5 h1 h2 rfl h4]

/-- C1 (amended): on every tick, the inverter switch-mode command is issued
iff the target differs from the confirmed mode, the contactors are closed,
the settle delay is 0, and STRICTLY more than 5 time units have elapsed
since the last command; when issued, the command timestamp is recorded and
the emitted command carries the target. -/
theorem C1_command_gating (st : ControllerState) (now : ℚ) :
    ((set_inverter_switch_mode st now).2 ≠ [] ↔
      (Inverter_Switch_Mode_Target st ≠ some st.Inverter_Switch_Mode ∧
       (Battery_Contactors_Closed st).1 = true ∧
       st.inverter_delay = 0 ∧
       now - st.inverter_switch_mode_update_time > 5)) ∧
    ((set_inverter_switch_mode st now).2 ≠ [] →
      (set_inverter_switch_mode st now).1.inverter_switch_mode_update_time = now ∧
      (set_inverter_switch_mode st now).2 =
        [.inverter_switch_mode (Inverter_Switch_Mode_Target st)]) := by
  by_cases h1 : Inverter_Switch_Mode_Target st = some st.Inverter_Switch_Mode
  · rw [set_ism_eq_target st now h1]
    simp [h1]
  · by_cases h2 : (Battery_Contactors_Closed st).1 = true
    · by_cases h3 : st.inverter_delay = 0
      · by_cases h4 : now - st.inverter_switch_mode_update_time > 5
        · rw [set_ism_command st now h1 h2 h3 h4]
          simp [h1, h2, h3, h4]
        · rw [set_ism_rate_limited st now h1 h2 h3 h4]
          simp [h4]
      · rw [set_ism_settle st now h1 h2 h3]
        simp [h3]
    · have h2f : (Battery_Contactors_Closed st).1 = false := by
        revert h2
        cases (Battery_Contactors_Closed st).1 <;> simp
      rw [set_ism_open st now h1 h2f]
      simp [h2f]

/-- Witness for C1 at 6 time units elapsed: the command is issued and the
timestamp recorded. -/
theorem C1_command_gating_witness :
    (set_inverter_switch_mode stPendingOn 6).1.inverter_switch_mode_update_time = 6 ∧
    (set_inverter_switch_mode stPendingOn 6).2 =
      [.inverter_switch_mode (Inverter_Switch_Mode_Target stPendingOn)] :=
  have h := C1_command_gating stPendingOn 6
  h.2 (h.1.mpr ⟨by decide, by decide, rfl, by norm_num [stPendingOn, initState]⟩)

/-- With numeric limits (as in every reachable state — the limits are
initialised to 0 and only ever assigned rounded numbers), the contactor
predicate is the conjunction of both limits being nonzero. -/
lemma contactors_closed_fst (st : ControllerState) (c d : ℚ)
    (hc : st.Battery_Charge_Limit = some c) (hd : st.Battery_Discharge_Limit = some d) :
    (Battery_Contactors_Closed st).1 = (decide (c ≠ 0) && decide (d ≠ 0)) := by
  rw [Battery_Contactors_Closed_def]
  by_cases h : c = 0 <;> simp [pyAnd, pyTruthy, hc, hd, h]

/-- With numeric limits, observing the contactors open (either limit zero)
resets the settle delay to 10. -/
lemma contactors_open_resets (st : ControllerState) (c d : ℚ)
    (hc : st.Battery_Charge_Limit = some c) (hd : st.Battery_Discharge_Limit = some d)
    (h : c = 0 ∨ d = 0) :
    (Battery_Contactors_Closed st).2 = { st with inverter_delay := 10 } ∧
    (Battery_Contactors_Closed st).1 = false := by
  rw [Battery_Contactors_Closed_def]
  rcases h with h | h
  · simp [pyAnd, pyTruthy, pyEqFalse, hc, hd, h]
  · by_cases hc0 : c = 0 <;> simp [pyAnd, pyTruthy, pyEqFalse, hc, hd, h, hc0]

/-- C4: while an inverter command is pending (target differs from the
confirmed mode, which is when the gate observes the contactors), a tick
that observes the contactors open (either limit falsy) resets the settle
delay to 10 and issues nothing; a tick that observes them closed with a
positive delay decrements it and issues nothing; and a command can only be
issued on a tick whose delay is already 0. -/
theorem C4_settle_delay_gate (st : ControllerState) (now : ℚ) (c d : ℚ)
    (hpend : Inverter_Switch_Mode_Target st ≠ some st.Inverter_Switch_Mode)
    (hc : st.Battery_Charge_Limit = some c)
    (hd : st.Battery_Discharge_Limit = some d) :
    (c = 0 ∨ d = 0 →
      (set_inverter_switch_mode st now).1.inverter_delay = 10 ∧
      (set_inverter_switch_mode st now).2 = []) ∧
    (c ≠ 0 → d ≠ 0 → st.inverter_delay ≠ 0 →
      (set_inverter_switch_mode st now).1.inverter_delay = st.inverter_delay - 1 ∧
      (set_inverter_switch_mode st now).2 = []) ∧
    ((set_inverter_switch_mode st now).2 ≠ [] → st.inverter_delay = 0) := by
  refine ⟨?_, ?_, ?_⟩
  · intro h
    obtain ⟨hsnd, hfst⟩ := contactors_open_resets st c d hc hd h
    rw [set_ism_open st now hpend hfst, hsnd]
    exact ⟨rfl, rfl⟩
  · intro hc0 hd0 hdel
    have hfst : (Battery_Contactors_Closed st).1 = true := by
      rw [contactors_closed_fst st c d hc hd]
      simp [hc0, hd0]
    rw [set_ism_settle st now hpend hfst hdel]
    exact ⟨rfl, rfl⟩
  · intro hne
    by_contra hdel
    by_cases hfst : (Battery_Contactors_Closed st).1 = true
    · rw [set_ism_settle st now hpend hfst hdel] at hne
      exact hne rfl
    · have hfst' : (Battery_Contactors_Closed st).1 = false := by
        revert hfst
        cases (Battery_Contactors_Closed st).1 <;> simp
      rw [set_ism_open st now hpend hfst'] at hne
      exact hne rfl

/-- A pending-command state whose charge limit reads 0: the battery
contactors are open and the settle delay is mid-countdown. -/
def stContactorsOpen : ControllerState :=
  { initState with
      Mode := "On"
      Inverter_Switch_Mode := 4
      Battery_Charge_Limit := some 0
      Battery_Discharge_Limit := some 100
      inverter_delay := 3 }

/-- Witness for C4: with the charge limit 0 the settle delay is reset to 10
and nothing is issued. -/
theorem C4_settle_delay_gate_witness :
    (set_inverter_switch_mode stContactorsOpen 0).1.inverter_delay = 10 ∧
    (set_inverter_switch_mode stContactorsOpen 0).2 = [] :=
  (C4_settle_delay_gate stContactorsOpen 0 0 100 (by decide) rfl rfl).1 (Or.inl rfl)

/-- C10: a failed inverter switch-mode read stores the sentinel 0 (outside
the valid codes 1-4: for every reachable mode the target never equals 0,
whether or not the alarm is set) and clears the connected flag; with the
confirmed mode stuck at 0 the first gate always passes, so whenever the
contactors are closed, the delay is 0 and the rate-limit interval has
elapsed, the sequencer issues another command; and within the rate-limit
interval it issues nothing. -/
theorem C10_link_down_sentinel_keeps_commanding (st : ControllerState) (now : ℚ) :
    ((update_inverter_switch_mode st none).Inverter_Switch_Mode = 0 ∧
     (update_inverter_switch_mode st none).Inverter_Connected = false) ∧
    (st.Mode = "" ∨ st.Mode = "Off" ∨ st.Mode = "On" ∨ st.Mode = "ChargeOnly" →
      Inverter_Switch_Mode_Target st ≠ some 0) ∧
    (st.Inverter_Switch_Mode = 0 →
      (st.Mode = "" ∨ st.Mode = "Off" ∨ st.Mode = "On" ∨ st.Mode = "ChargeOnly") →
      (Battery_Contactors_Closed st).1 = true →
      st.inverter_delay = 0 →
      now - st.inverter_switch_mode_update_time > 5 →
      (set_inverter_switch_mode st now).2 =
        [.inverter_switch_mode (Inverter_Switch_Mode_Target st)] ∧
      (set_inverter_switch_mode st now).1.inverter_switch_mode_update_time = now) ∧
    (¬(now - st.inverter_switch_mode_update_time > 5) →
      (set_inverter_switch_mode st now).2 = []) := by
  have htarget : st.Mode = "" ∨ st.Mode = "Off" ∨ st.Mode = "On" ∨ st.Mode = "ChargeOnly" →
      Inverter_Switch_Mode_Target st ≠ some 0 := by
    intro hm
    by_cases ha : st.Reverse_Power_Alarm = true
    · simp [Inverter_Switch_Mode_Target, ha, INV_SWITCH_OFF]
    · have ha' : st.Reverse_Power_Alarm = false := by
        revert ha
        cases st.Reverse_Power_Alarm <;> simp
      rcases hm with hm | hm | hm | hm <;>
        simp [Inverter_Switch_Mode_Target, ha', hm, INV_SWITCH_OFF, INV_SWITCH_ON,
          INV_SWITCH_CHARGE_ONLY]
  refine ⟨⟨rfl, rfl⟩, htarget, ?_, ?_⟩
  · intro h0 hm h2 h3 h4
    have h1 : Inverter_Switch_Mode_Target st ≠ some st.Inverter_Switch_Mode := by
      rw [h0]
      exact htarget hm
    rw [set_ism_command st now h1 h2 h3 h4]
    exact ⟨rfl, rfl⟩
  · intro h4
    by_cases h1 : Inverter_Switch_Mode_Target st = some st.Inverter_Switch_Mode
    · rw [set_ism_eq_target st now h1]
    · by_cases h2 : (Battery_Contactors_Closed st).1 = true
      · by_cases h3 : st.inverter_delay = 0
        · rw [set_ism_rate_limited st now h1 h2 h3 h4]
        · rw [set_ism_settle st now h1 h2 h3]
      · have h2f : (Battery_Contactors_Closed st).1 = false := by
          revert h2
          cases (Battery_Contactors_Closed st).1 <;> simp
        rw [set_ism_open st now h1 h2f]

/-- A state with the inverter link down: the confirmed switch mode holds
the sentinel 0 while the mode is On, contactors closed, delay 0. -/
def stInverterLinkDown : ControllerState :=
  { initState with
      Mode := "On"
      Inverter_Switch_Mode := 0
      Battery_Charge_Limit := some 100
      Battery_Discharge_Limit := some 100 }

/-- Witness for C10: with the link-down sentinel and the other gates
passing at 6 elapsed time units, a command is issued again. -/
theorem C10_link_down_sentinel_keeps_commanding_witness :
    (set_inverter_switch_mode stInverterLinkDown 6).2 =
      [.inverter_switch_mode (Inverter_Switch_Mode_Target stInverterLinkDown)] ∧
    (set_inverter_switch_mode stInverterLinkDown 6).1.inverter_switch_mode_update_time = 6 :=
  (C10_link_down_sentinel_keeps_commanding stInverterLinkDown 6).2.2.1 rfl
    (Or.inr (Or.inr (Or.inl rfl))) (by decide) rfl
    (by norm_num [stInverterLinkDown, initState])

/-- The input-sampling plus mode phase of one tick: store the sampled
digital inputs (as `update_inputs` does at the top of the loop body) and
run `update_mode`. -/
def mode_machine_step (st : ControllerState) (i : Inputs) : ControllerState :=
  update_mode { st with input_values := i }

/-- The mode phase iterated over a sequence of per-tick input samples. -/
def mode_machine_run (st : ControllerState) (l : List Inputs) : ControllerState :=
  l.foldl mode_machine_step st

/-- After one `update_mode` from the initial empty mode or any of the three
valid modes, the mode is one of the three valid values. -/
lemma update_mode_valid (st : ControllerState)
    (h : st.Mode = "" ∨ st.Mode = "Off" ∨ st.Mode = "On" ∨ st.Mode = "ChargeOnly") :
    (update_mode st).Mode = "Off" ∨ (update_mode st).Mode = "On" ∨
      (update_mode st).Mode = "ChargeOnly" := by
  unfold update_mode Off_Button_Pressed On_Button_Pressed Charge_Button_Pressed
  rcases h with h | h | h | h <;>
  cases hoff : st.input_values.Off_Button <;>
  cases hon : st.input_values.On_Button <;>
  cases hchg : st.input_values.Charge_Button <;>
    simp [h, hoff, hon, hchg, DEFAULT_MODE] <;> split_ifs <;> simp

/-- Iterating the mode machine preserves validity of the mode. -/
lemma mode_machine_run_valid (l : List Inputs) :
    ∀ st : ControllerState,
      st.Mode = "" ∨ st.Mode = "Off" ∨ st.Mode = "On" ∨ st.Mode = "ChargeOnly" →
      l ≠ [] →
      (mode_machine_run st l).Mode = "Off" ∨ (mode_machine_run st l).Mode = "On" ∨
        (mode_machine_run st l).Mode = "ChargeOnly" := by
  induction l with
  | nil => intro st _ hne; exact absurd rfl hne
  | cons i l ih =>
    intro st h _
    have h1 := update_mode_valid { st with input_values := i } h
    rcases l with _ | ⟨j, l⟩
    · simpa [mode_machine_run, mode_machine_step] using h1
    · have h2 := ih (mode_machine_step st i)
        (by right; simpa [mode_machine_step] using h1) (by simp)
      simpa [mode_machine_run] using h2

/-- C6: the mode changes only on ticks where exactly one button is asserted
alone (to Off, On, or ChargeOnly respectively); ticks with no button or an
ambiguous multi-press leave the mode unchanged (once past the first-tick
default); and over any nonempty input sequence starting from the initial
empty mode the mode is one of the three valid values. -/
theorem C6_mode_transitions (st : ControllerState) (i : Inputs) (l : List Inputs) :
    (Off_Button_Pressed st = true → On_Button_Pressed st = false →
      Charge_Button_Pressed st = false → (update_mode st).Mode = "Off") ∧
    (On_Button_Pressed st = true → Off_Button_Pressed st = false →
      Charge_Button_Pressed st = false → (update_mode st).Mode = "On") ∧
    (Charge_Button_Pressed st = true → Off_Button_Pressed st = false →
      On_Button_Pressed st = false → (update_mode st).Mode = "ChargeOnly") ∧
    (st.Mode ≠ "" →
      ¬((Off_Button_Pressed st = true ∧ On_Button_Pressed st = false ∧
          Charge_Button_Pressed st = false) ∨
        (On_Button_Pressed st = true ∧ Off_Button_Pressed st = false ∧
          Charge_Button_Pressed st = false) ∨
        (Charge_Button_Pressed st = true ∧ Off_Button_Pressed st = false ∧
          On_Button_Pressed st = false)) →
      (update_mode st).Mode = st.Mode) ∧
    (st.Mode = "" →
      (mode_machine_run st (i :: l)).Mode = "Off" ∨
      (mode_machine_run st (i :: l)).Mode = "On" ∨
      (mode_machine_run st (i :: l)).Mode = "ChargeOnly") := by
  refine ⟨?_, ?_, ?_, ?_, ?_⟩
  · intro hoff hon hchg
    unfold update_mode Off_Button_Pressed On_Button_Pressed Charge_Button_Pressed at *
    by_cases hm : st.Mode = "" <;>
      simp [hm, hoff, hon, hchg, DEFAULT_MODE] <;> split_ifs <;> simp_all
  · intro hon hoff hchg
    unfold update_mode Off_Button_Pressed On_Button_Pressed Charge_Button_Pressed at *
    by_cases hm : st.Mode = "" <;>
      simp [hm, hoff, hon, hchg, DEFAULT_MODE]
  · intro hchg hoff hon
    unfold update_mode Off_Button_Pressed On_Button_Pressed Charge_Button_Pressed at *
    by_cases hm : st.Mode = "" <;>
      simp [hm, hoff, hon, hchg, DEFAULT_MODE]
  · intro hm hnot
    unfold update_mode Off_Button_Pressed On_Button_Pressed Charge_Button_Pressed at *
    cases hoff : st.input_values.Off_Button <;>
    cases hon : st.input_values.On_Button <;>
    cases hchg : st.input_values.Charge_Button <;>
      simp [hoff, hon, hchg] at hnot ⊢ <;>
      simp [beq_iff_eq, hm] <;> split_ifs <;> simp_all
  · intro hm
    exact mode_machine_run_valid (i :: l) st (Or.inl hm) (by simp)

/-- Witness for C6 at concrete inputs: from the initial state, one tick
with no buttons pressed yields a valid mode. -/
theorem C6_mode_transitions_witness :
    (mode_machine_run initState
        [⟨false, false, false, false, false, false, false⟩]).Mode = "Off" ∨
    (mode_machine_run initState
        [⟨false, false, false, false, false, false, false⟩]).Mode = "On" ∨
    (mode_machine_run initState
        [⟨false, false, false, false, false, false, false⟩]).Mode = "ChargeOnly" :=
  (C6_mode_transitions initState ⟨false, false, false, false, false, false, false⟩
    []).2.2.2.2 rfl

/-- The off-button hold counter after `update_mode`: incremented while Off
is held, reset to 0 otherwise. -/
lemma update_mode_counter (st : ControllerState) :
    (update_mode st).Off_Button_Pressed_Counter =
      if st.input_values.Off_Button then st.Off_Button_Pressed_Counter + 1 else 0 := by
  unfold update_mode Off_Button_Pressed On_Button_Pressed Charge_Button_Pressed
  by_cases hm : st.Mode = "" <;>
  cases hoff : st.input_values.Off_Button <;>
  cases hon : st.input_values.On_Button <;>
  cases hchg : st.input_values.Charge_Button <;>
    simp [hm, hoff, hon, hchg] <;> split_ifs <;> simp

/-- The BMS-disable latch after `update_mode`: cleared by a single On or
Charge press, set by the escalation when the updated hold counter is at or
beyond 10, otherwise unchanged. -/
lemma update_mode_disable (st : ControllerState) :
    (update_mode st).BMS_Disable =
      if st.input_values.On_Button &&
          !(st.input_values.Off_Button || st.input_values.Charge_Button) then false
      else if st.input_values.Charge_Button &&
          !(st.input_values.On_Button || st.input_values.Off_Button) then false
      else if (if st.input_values.Off_Button then st.Off_Button_Pressed_Counter + 1 else 0)
          ≥ 10 then true
      else st.BMS_Disable := by
  unfold update_mode Off_Button_Pressed On_Button_Pressed Charge_Button_Pressed
  by_cases hm : st.Mode = "" <;>
  cases hoff : st.input_values.Off_Button <;>
  cases hon : st.input_values.On_Button <;>
  cases hchg : st.input_values.Charge_Button <;>
    simp [hm, hoff, hon, hchg] <;> split_ifs <;> simp_all

/-- C7: the off-button hold counter increments on every tick the Off button
is held and resets to 0 otherwise; whenever it lands at 10 or more,
BMS_Disable is latched true; it stays true on any tick that is not a
single On or Charge press; and a tick where On alone or Charge alone is
pressed clears it. -/
theorem C7_off_hold_bms_disable (st : ControllerState) :
    (Off_Button_Pressed st = true →
      (update_mode st).Off_Button_Pressed_Counter = st.Off_Button_Pressed_Counter + 1) ∧
    (Off_Button_Pressed st = false → (update_mode st).Off_Button_Pressed_Counter = 0) ∧
    ((update_mode st).Off_Button_Pressed_Counter ≥ 10 → (update_mode st).BMS_Disable = true) ∧
    (st.BMS_Disable = true →
      ¬(On_Button_Pressed st = true ∧ Off_Button_Pressed st = false ∧
          Charge_Button_Pressed st = false) →
      ¬(Charge_Button_Pressed st = true ∧ Off_Button_Pressed st = false ∧
          On_Button_Pressed st = false) →
      (update_mode st).BMS_Disable = true) ∧
    (On_Button_Pressed st = true → Off_Button_Pressed st = false →
      Charge_Button_Pressed st = false → (update_mode st).BMS_Disable = false) ∧
    (Charge_Button_Pressed st = true → Off_Button_Pressed st = false →
      On_Button_Pressed st = false → (update_mode st).BMS_Disable = false) := by
  simp only [Off_Button_Pressed, On_Button_Pressed, Charge_Button_Pressed]
  refine ⟨?_, ?_, ?_, ?_, ?_, ?_⟩
  · intro h
    rw [update_mode_counter, h]
    rfl
  · intro h
    rw [update_mode_counter, h]
    rfl
  · intro h
    rw [update_mode_counter] at h
    rw [update_mode_disable]
    cases hoff : st.input_values.Off_Button
    · rw [hoff] at h
      simp at h
    · rw [hoff] at h
      simp at h
      simp [hoff]
      exact Or.inl (by omega)
  · intro hdis hnoton hnotchg
    rw [update_mode_disable]
    cases hoff : st.input_values.Off_Button <;>
    cases hon : st.input_values.On_Button <;>
    cases hchg : st.input_values.Charge_Button <;>
      simp_all
  · intro hon hoff hchg
    rw [update_mode_disable]
    simp [hoff, hon, hchg]
  · intro hchg hoff hon
    rw [update_mode_disable]
    simp [hoff, hon, hchg]

/-- Witness for C7 at a concrete state: holding Off with the counter at 9
drives it to 10 and latches BMS_Disable. -/
theorem C7_off_hold_bms_disable_witness :
    (update_mode { initState with
        Off_Button_Pressed_Counter := 9,
        input_values := ⟨true, false, false, false, false, false, false⟩
      }).Off_Button_Pressed_Counter = 10 ∧
    (update_mode { initState with
        Off_Button_Pressed_Counter := 9,
        input_values := ⟨true, false, false, false, false, false, false⟩
      }).BMS_Disable = true := by
  have h := C7_off_hold_bms_disable { initState with
      Off_Button_Pressed_Counter := 9,
      input_values := ⟨true, false, false, false, false, false, false⟩ }
  have hcnt := h.1 rfl
  exact ⟨hcnt, h.2.2.1 (by rw [hcnt])⟩

end GeneratorControl
